import Mathlib

/-!
Verification development for the PiNN command-line trainer
(`pinn/trainer.py`) and its physical-consistency test oracle
(`tests/test_potential.py`).

The Python glue code is shallowly embedded: the trainer's parameter
record and its mutations become explicit Lean structures and functions,
the dataset pipeline becomes an inductive term recording the applied
transformation stages, and the external services the code delegates to
(YAML loading, `get_atomic_dress`, `potential_model`,
`train_and_evaluate`, the `networks` module, the ASE Lennard-Jones
calculator, the trained model's predictions) become oracle functions
bundled in an environment.  Numeric computations of the test oracle
(`np.linspace`, `np.trapz`, `np.mean`) are embedded over exact
rationals, and over the reals where a square root occurs.
-/

namespace PiNN

/-! ## Trainer data model (`pinn/trainer.py`) -/

/-- The `network` entry of the parameter record: in the source it is
either a string name (looked up on the `networks` module with
`getattr`) or a callable; callables are abstracted by an identifier. -/
inductive NetworkRef where
  | name (s : String)
  | callable (f : Nat)
deriving DecidableEq

/-- The opaque `network_params` mapping, forwarded verbatim as keyword
arguments to the network function.  The trainer never inspects it. -/
def NetParams : Type := List (String × ℚ)

instance : DecidableEq NetParams := by
  unfold NetParams
  infer_instance

/-- The `model_params` sub-record of the loaded YAML parameters.
`e_dress` is `Option`al because the source tests key presence with
`'e_dress' in params['model_params']`; the mapping itself is an
association list from atomic number to baseline energy.  `extra`
stands for any further keys of the dict, which the trainer never
touches. -/
structure ModelParams where
  e_dress : Option (List (Nat × ℚ))
  e_scale : ℚ
  e_unit : ℚ
  use_force : Bool
  extra : List (String × ℚ)
deriving DecidableEq

/-- The parameter record loaded from the YAML file (`params` in
`trainner`).  `extra` stands for any further top-level keys, which the
trainer never touches. -/
structure Params where
  model_dir : String
  network : NetworkRef
  network_params : NetParams
  model_params : ModelParams
  extra : List (String × ℚ)
deriving DecidableEq

/-- A dataset pipeline term: each constructor records one transformation
applied in `_dataset_fn` / `train_fn` (`load_tfrecord`, `sparse_batch`,
`map` with the network's preprocessing function, `cache`, `repeat`,
`shuffle`). -/
inductive Dataset where
  | loadTF (fname : String)
  | batchS (d : Dataset) (size : Nat)
  | mapPre (d : Dataset) (netFn : Nat) (netParams : NetParams)
  | cacheS (d : Dataset)
  | repeatS (d : Dataset)
  | shuffleS (d : Dataset) (buffer : Nat)
deriving DecidableEq

/-- The model object built by `potential_model(params)`; the source
delegates construction, so the model is determined by (and records) the
parameter record it was built from. -/
structure Model where
  params : Params
deriving DecidableEq

/-- `tf.estimator.TrainSpec(input_fn=train_fn, max_steps=train_steps)`. -/
structure TrainSpec where
  inputFn : Dataset
  maxSteps : Nat
deriving DecidableEq

/-- `tf.estimator.EvalSpec(input_fn=eval_fn, steps=eval_steps)`. -/
structure EvalSpec where
  inputFn : Dataset
  steps : Nat
deriving DecidableEq

/-- Environment of external services the trainer delegates to.
Modelled from the spec: these live outside `src/` ("the entire hard
logic ... lives in an external deep-learning framework"; YAML loading,
`pinn.utils.get_atomic_dress`, `pinn.models.potential_model`,
`tf.estimator.train_and_evaluate`, and the `pinn.networks` module are
not part of the embedded source), so they are oracles:
* `readParams` is `yaml.load` of the named parameter file;
* `networks` is `getattr(networks, name)`, returning a callable id;
* `getAtomicDress` recomputes a dress from a dataset and element list;
* `trainAndEvaluate` yields the metrics of the external procedure. -/
structure Env where
  readParams : String → Params
  networks : String → Nat
  getAtomicDress : Dataset → List Nat → (List (Nat × ℚ)) × ℚ
  trainAndEvaluate : Model → TrainSpec → EvalSpec → ℚ

/-- `potential_model(params)` (model construction is delegated; the
embedding records the argument). -/
def potential_model (p : Params) : Model := ⟨p⟩

/-- Observable trace of one `trainner` call: the parameter record handed
to `potential_model`, the two estimator specs, the metrics yielded by
the delegated `train_and_evaluate` call, and `trainner`'s own Python
return value (`none` models Python's `None`). -/
structure TrainnerTrace where
  modelArg : Params
  trainSpec : TrainSpec
  evalSpec : EvalSpec
  taeResult : ℚ
  ret : Option ℚ
deriving DecidableEq

/-- Lines 56-59 of `trainer.py`:
`if regen_dress and 'e_dress' in params['model_params']:` recompute the
dress via `get_atomic_dress(load_tfrecord(train_data), elems)` where
`elems = list(params['model_params']['e_dress'].keys())`, and overwrite
`params['model_params']['e_dress']`. -/
def regenDressStep (env : Env) (train_data : String) (regen_dress : Bool)
    (p : Params) : Params :=
  if regen_dress then
    match p.model_params.e_dress with
    | some dress =>
        let elems := dress.map Prod.fst
        let newDress := (env.getAtomicDress (Dataset.loadTF train_data) elems).1
        { p with model_params := { p.model_params with e_dress := some newDress } }
    | none => p
  else p

/-- Lines 67-70: the network function is
`getattr(networks, params['network'])` when the `network` entry is a
string and the entry itself otherwise. -/
def resolveNetwork (env : Env) (p : Params) : Nat :=
  match p.network with
  | NetworkRef.name s => env.networks s
  | NetworkRef.callable f => f

/-- `_dataset_fn(fname)` (lines 62-76): load, then batch when a batch
size is given, then map the selected network's preprocessing function
when `preprocess` is set, then cache when `cache_data` is set. -/
def datasetFn (env : Env) (p : Params) (batch_size : Option Nat)
    (preprocess cache_data : Bool) (fname : String) : Dataset :=
  let d := Dataset.loadTF fname
  let d := match batch_size with
    | some n => Dataset.batchS d n
    | none => d
  let d := if preprocess then Dataset.mapPre d (resolveNetwork env p) p.network_params
    else d
  let d := if cache_data then Dataset.cacheS d else d
  d

/-- The training orchestrator `trainner` (lines 41-82 of `trainer.py`):
load the params, inject `model_dir`, possibly regenerate the dress,
build the model, build the train/eval dataset functions
(`train_fn = lambda: _dataset_fn(train_data).repeat().shuffle(shuffle_buffer)`,
`eval_fn = lambda: _dataset_fn(eval_data)`), wrap them in the two
estimator specs, and call `train_and_evaluate`; the function body has
no `return` statement, so it returns Python `None`. -/
def trainner (env : Env) (model_dir params_file train_data eval_data : String)
    (train_steps eval_steps : Nat) (batch_size : Option Nat)
    (preprocess cache_data : Bool) (shuffle_buffer : Nat)
    (regen_dress : Bool) : TrainnerTrace :=
  let params0 := env.readParams params_file
  let params1 := { params0 with model_dir := model_dir }
  let params := regenDressStep env train_data regen_dress params1
  let model := potential_model params
  let train_fn :=
    Dataset.shuffleS
      (Dataset.repeatS (datasetFn env params batch_size preprocess cache_data train_data))
      shuffle_buffer
  let eval_fn := datasetFn env params batch_size preprocess cache_data eval_data
  let train_spec : TrainSpec := { inputFn := train_fn, maxSteps := train_steps }
  let eval_spec : EvalSpec := { inputFn := eval_fn, steps := eval_steps }
  let res := env.trainAndEvaluate model train_spec eval_spec
  { modelArg := params
    trainSpec := train_spec
    evalSpec := eval_spec
    taeResult := res
    ret := none }

/-- The eleven values parsed by `main`'s argument parser
(lines 91-115), after argparse type coercion. -/
structure Args where
  model_dir : String
  params_file : String
  train_data : String
  eval_data : String
  train_steps : Nat
  eval_steps : Nat
  batch_size : Option Nat
  preprocess : Bool
  cache_data : Bool
  shuffle_buffer : Nat
  regen_dress : Bool
deriving DecidableEq

/-- The entry point `main` (lines 115-121): forwards the parsed values
to `trainner` positionally in the order of the call in the source. -/
def main (env : Env) (a : Args) : TrainnerTrace :=
  trainner env a.model_dir a.params_file a.train_data a.eval_data
    a.train_steps a.eval_steps a.batch_size a.preprocess
    a.cache_data a.shuffle_buffer a.regen_dress

/-! ## Numeric helpers of the test oracle (`numpy` semantics) -/

/-- `np.linspace(a, b, n)` with the default `endpoint=True`: `n` points
`a + i*(b-a)/(n-1)`; a single point is `a`, zero points the empty
list. -/
def npLinspace (a b : ℚ) (n : Nat) : List ℚ :=
  if n ≤ 1 then (List.range n).map (fun _ => a)
  else (List.range n).map (fun i : ℕ => a + (i : ℚ) * (b - a) / ((n : ℚ) - 1))

/-- `np.trapz(y, x=x)`: trapezoidal quadrature
`Σ (x[i+1]-x[i]) * (y[i]+y[i+1]) / 2` over consecutive sample pairs. -/
def npTrapz : List ℚ → List ℚ → ℚ
  | y1 :: y2 :: ys, x1 :: x2 :: xs =>
      (x2 - x1) * (y1 + y2) / 2 + npTrapz (y2 :: ys) (x2 :: xs)
  | _, _ => 0

/-- `np.mean` of a list of reals (used under the square root of the
RMSE computation; `ℝ` is needed there because `np.sqrt` occurs, so
these definitions are noncomputable). -/
noncomputable def npMeanR (l : List ℝ) : ℝ := l.sum / l.length

/-! ## Test oracle embedding (`tests/test_potential.py`) -/

/-- `Modelled from the spec:` the ASE `LennardJones` calculator (an
external atomistic-simulation library component, "a known analytic
potential" per the spec) is abstracted as a pair of oracle functions
from a 3-atom position matrix to an energy and a 3x3 force matrix. -/
structure LJCalc where
  energy : List (List ℚ) → ℚ
  forces : List (List ℚ) → List (List ℚ)

/-- The position matrix used throughout the tests: atoms `H3` at
`[[0,0,0],[0,1,0],[1,1,0]]` with atom 0's x-coordinate set to `x`. -/
def ljPositions (x : ℚ) : List (List ℚ) :=
  [[x, 0, 0], [0, 1, 0], [1, 1, 0]]

/-- The scan grid of `_get_lj_data`: `np.linspace(-5, 0, 1000)`. -/
def ljScanXs : List ℚ := npLinspace (-5) 0 1000

/-- The record produced by `_get_lj_data` (lines 56-75). -/
structure LJData where
  coord : List (List (List ℚ))
  elems : List (List Nat)
  e_data : List ℚ
  f_data : List (List (List ℚ))
deriving DecidableEq

/-- `_get_lj_data()` (lines 56-75): sets up `Atoms('H3')` with a
`LennardJones(rc=5.0)` calculator (`lj` maps the cutoff `rc` to the
calculator oracles), scans atom 0's x-coordinate over
`np.linspace(-5, 0, 1000)`, and for each sample appends a copy of the
positions, the atomic numbers `[1,1,1]`, the potential energy and the
forces. -/
def get_lj_data (lj : ℚ → LJCalc) : LJData :=
  let c := lj 5
  { coord := ljScanXs.map ljPositions
    elems := ljScanXs.map (fun _ => [1, 1, 1])
    e_data := ljScanXs.map (fun x => c.energy (ljPositions x))
    f_data := ljScanXs.map (fun x => c.forces (ljPositions x)) }

/-- `Modelled from the spec:` `helpers.assert_almost_equal` (test helper
module, not under `src/`) checks that two scalars agree "within
tolerance"; the tolerance is an explicit parameter. -/
def assertAlmostEqual (a b tol : ℚ) : Prop := |a - b| ≤ tol

/-- `Modelled from the spec:` real-valued variant of
[[assertAlmostEqual]] for the RMSE check, where a square root occurs. -/
def assertAlmostEqualR (a b tol : ℝ) : Prop := |a - b| ≤ tol

/-! ### Energy-conservation check (lines 118-131) -/

/-- The scan grid of the conservation check:
`x_a_range = np.linspace(-6, -3, 500)`. -/
def xScanRange : List ℚ := npLinspace (-6) (-3) 500

/-- The conservation check of `_potential_tests` (lines 118-131), over
oracles `E` (the calculator's predicted energy as a function of atom
0's x-coordinate) and `F` (the predicted 3x3 force matrix): build
`e_pred` and `f_pred` over the scan, take
`de = e_pred[-1] - e_pred[0]` and
`int_f = np.trapz(f_pred[:,0,0], x=x_a_range)`, and assert
`de ≈ -int_f`. -/
def conservationCheck (E : ℚ → ℚ) (F : ℚ → List (List ℚ)) (tol : ℚ) : Prop :=
  let e_pred := xScanRange.map E
  let f00 := xScanRange.map (fun x => ((F x).headD []).headD 0)
  let de := e_pred.getLastD 0 - e_pred.headD 0
  let int_f := npTrapz f00 xScanRange
  assertAlmostEqual de (-int_f) tol

/-! ### Virial-pressure check (lines 133-147) -/

/-- The cell side lengths of the virial scan:
`l_range = np.linspace(3, 3.5, 500)`. -/
def lScanRange : List ℚ := npLinspace 3 (35/10) 500

/-- Trace of a 3x3 matrix (`np.trace`). -/
def trace3 (m : List (List ℚ)) : ℚ :=
  ((m.headD []).headD 0) + ((m.getD 1 []).getD 1 0) + ((m.getD 2 []).getD 2 0)

/-- The predicted pressure sample recorded at side length `l`:
`np.sum(np.trace(calc.get_stress()))/3/l**3` (the `np.sum` of the
scalar trace is the trace itself). -/
def pressureAt (S : ℚ → List (List ℚ)) (l : ℚ) : ℚ :=
  trace3 (S l) / 3 / l ^ 3

/-- The virial-pressure check of `_potential_tests` (lines 133-147),
over oracles `E` (predicted energy as a function of the cubic cell side
length `l`) and `S` (the predicted 3x3 stress tensor at `l`): build
`e_pred` and `p_pred` over the scan, take `de = e_pred[-1] - e_pred[0]`
and `int_p = np.trapz(p_pred, x=l_range**3)`, and assert `de ≈ int_p`. -/
def virialCheck (E : ℚ → ℚ) (S : ℚ → List (List ℚ)) (tol : ℚ) : Prop :=
  let e_pred := lScanRange.map E
  let p_pred := lScanRange.map (fun l => pressureAt S l)
  let de := e_pred.getLastD 0 - e_pred.headD 0
  let int_p := npTrapz p_pred (lScanRange.map (fun l => l ^ 3))
  assertAlmostEqual de int_p tol

/-! ### Regression (RMSE) check (lines 99-116) -/

/-- `np.sqrt(np.mean((pred/e_unit - ref)**2))`: the RMSE of the model's
own predictions, divided by `e_unit`, against the reference data
(arrays are flattened to lists of entries; the operations are
elementwise). -/
noncomputable def rmseResidual (e_unit : ℝ) (pred ref : List ℝ) : ℝ :=
  Real.sqrt (npMeanR ((List.zipWith (fun p d => p / e_unit - d) pred ref).map
    (fun r => r ^ 2)))

/-- The regression check of `_potential_tests` (lines 111-116), for a
given `model_params` configuration `mp`: the reported
`results['METRICS/F_RMSE']` and `results['METRICS/E_RMSE']` (here `M_F`
and `M_E`), each divided by `e_scale`, are asserted almost equal to the
residual RMSE of the predictions (divided by `e_unit`) against the
reference data. -/
noncomputable def regressionCheck (mp : ModelParams) (M_F M_E : ℝ)
    (f_pred f_data e_pred e_data : List ℝ) (tol : ℝ) : Prop :=
  assertAlmostEqualR (M_F / (mp.e_scale : ℝ)) (rmseResidual (mp.e_unit : ℝ) f_pred f_data) tol ∧
  assertAlmostEqualR (M_E / (mp.e_scale : ℝ)) (rmseResidual (mp.e_unit : ℝ) e_pred e_data) tol

/-- The `model_params` configured by `test_pinn_potential`
(lines 20-26): `{'use_force': True, 'e_dress':{1:0.5}, 'e_scale':5.0,
'e_unit':2.0}`. -/
def pinnTestModelParams : ModelParams :=
  { e_dress := some [(1, 1/2)], e_scale := 5, e_unit := 2
    use_force := true, extra := [] }

/-- The `model_params` configured by `test_bpnn_potential`
(lines 44-50): `{'use_force': True, 'e_dress':{1:0.5}, 'e_scale':5.0,
'e_unit':2.0}`. -/
def bpnnTestModelParams : ModelParams :=
  { e_dress := some [(1, 1/2)], e_scale := 5, e_unit := 2
    use_force := true, extra := [] }

/-! ## Command-line boolean flag coercion (`main`, lines 106-113) -/

/-- Python's `bool` builtin applied to a string (the `type=bool`
coercion argparse performs on a supplied flag value): false exactly on
the empty string. -/
def pyBoolOfString (s : String) : Bool := s != ""

/-- An argparse flag declared with `type=bool` and a default: a
supplied string value goes through `bool`, an omitted flag yields the
default unchanged (argparse applies `type` only to supplied strings). -/
def parseBoolFlag (supplied : Option String) (dflt : Bool) : Bool :=
  match supplied with
  | none => dflt
  | some s => pyBoolOfString s

/-- `--preprocess` (lines 106-107): `type=bool, default=False`. -/
def parsePreprocessFlag (supplied : Option String) : Bool :=
  parseBoolFlag supplied false

/-- `--cache-data` (lines 108-109): `type=bool, default=True`. -/
def parseCacheDataFlag (supplied : Option String) : Bool :=
  parseBoolFlag supplied true

/-- `--regen-dress` (lines 112-113): `type=bool, default=True`. -/
def parseRegenDressFlag (supplied : Option String) : Bool :=
  parseBoolFlag supplied true

/-! ## Pipeline stage listing

`stages` flattens a dataset pipeline term into the ordered list of
transformation stages applied to it, innermost (first-applied) first. -/

/-- One dataset transformation stage. -/
inductive Stage where
  | loadS (fname : String)
  | batchSt (n : Nat)
  | mapSt (netFn : Nat) (netParams : NetParams)
  | cacheSt
  | repeatSt
  | shuffleSt (buffer : Nat)
deriving DecidableEq

/-- The ordered stage list of a pipeline term. -/
def stages : Dataset → List Stage
  | Dataset.loadTF f => [Stage.loadS f]
  | Dataset.batchS d n => stages d ++ [Stage.batchSt n]
  | Dataset.mapPre d fn np => stages d ++ [Stage.mapSt fn np]
  | Dataset.cacheS d => stages d ++ [Stage.cacheSt]
  | Dataset.repeatS d => stages d ++ [Stage.repeatSt]
  | Dataset.shuffleS d b => stages d ++ [Stage.shuffleSt b]

/-! ## Sample environment (used to instantiate theorems with
hypotheses on concrete inputs) -/

/-- A concrete parameter record. -/
def sampleParams : Params :=
  { model_dir := "old_dir"
    network := NetworkRef.name "pinn_network"
    network_params := ([("depth", (3 : ℚ))] : List (String × ℚ))
    model_params :=
      { e_dress := some [(1, 1/2)], e_scale := 5, e_unit := 2
        use_force := true, extra := [("extra_key", 7)] }
    extra := [("seed", 3)] }

/-- A concrete environment: every params file reads as
[[sampleParams]]; `get_atomic_dress` sends each element `e` to baseline
`e + 1`; `train_and_evaluate` yields `42`. -/
def sampleEnv : Env :=
  { readParams := fun _ => sampleParams
    networks := fun s => s.length
    getAtomicDress := fun _ elems => (elems.map (fun e => (e, (e : ℚ) + 1)), 0)
    trainAndEvaluate := fun _ _ _ => 42 }

/-! ## List and linspace helper lemmas -/

theorem headD_map {α β : Type} (f : α → β) (l : List α) (d : β) (c : α)
    (h : l ≠ []) : (l.map f).headD d = f (l.headD c) := by
  cases l with
  | nil => exact absurd rfl h
  | cons a t => rfl

theorem getLastD_map {α β : Type} (f : α → β) (l : List α) (d : β) (c : α)
    (h : l ≠ []) : (l.map f).getLastD d = f (l.getLastD c) := by
  induction l generalizing d c with
  | nil => exact absurd rfl h
  | cons a t ih =>
    simp only [List.map_cons, List.getLastD_cons]
    cases t with
    | nil => rfl
    | cons b u => exact ih (f a) a (by simp)

theorem getD_map_lt {α β : Type} (f : α → β) (l : List α) (i : Nat) (d : β)
    (c : α) (h : i < l.length) : (l.map f).getD i d = f (l.getD i c) := by
  rw [List.getD_eq_getElem?_getD, List.getD_eq_getElem?_getD, List.getElem?_map]
  rw [List.getElem?_eq_getElem h]
  rfl

theorem npLinspace_ne_nil (a b : ℚ) (n : Nat) (h : 1 ≤ n) :
    npLinspace a b n ≠ [] := by
  have hn : List.range n ≠ [] := by
    simp only [ne_eq, List.range_eq_nil]
    omega
  unfold npLinspace
  split
  · simpa using hn
  · simpa using hn

theorem npLinspace_headD (a b : ℚ) (n : Nat) (h : 2 ≤ n) :
    (npLinspace a b n).headD 0 = a := by
  unfold npLinspace
  rw [if_neg (by omega)]
  obtain ⟨m, rfl⟩ : ∃ m, n = m + 2 := ⟨n - 2, by omega⟩
  simp [List.range_succ_eq_map]

theorem npLinspace_getLastD (a b : ℚ) (n : Nat) (h : 2 ≤ n) :
    (npLinspace a b n).getLastD 0 = b := by
  unfold npLinspace
  rw [if_neg (by omega)]
  obtain ⟨m, rfl⟩ : ∃ m, n = m + 2 := ⟨n - 2, by omega⟩
  rw [List.range_succ, List.map_append]
  simp only [List.map_cons, List.map_nil]
  rw [List.getLastD_eq_getLast?, List.getLast?_append]
  simp only [List.getLast?_singleton, Option.getD_some]
  have hne : ((m : ℚ) + 2 - 1) ≠ 0 := by
    have : (0 : ℚ) < (m : ℚ) + 1 := by positivity
    intro hc
    nlinarith
  push_cast
  field_simp
  ring

theorem npLinspace_getD (a b : ℚ) (n i : Nat) (h : 2 ≤ n) (hi : i < n) :
    (npLinspace a b n).getD i 0 = a + (i : ℚ) * (b - a) / ((n : ℚ) - 1) := by
  unfold npLinspace
  rw [if_neg (by omega)]
  rw [List.getD_eq_getElem?_getD, List.getElem?_map, List.getElem?_range hi]
  rfl

theorem npLinspace_length (a b : ℚ) (n : Nat) :
    (npLinspace a b n).length = n := by
  unfold npLinspace
  split <;> simp

/-! ## Claim theorems -/

/-- C1: In `trainner`, if and only if the regenerate-dress flag is true
and the loaded record's `model_params` contains the key `e_dress`, the
energy dress is recomputed from the training dataset using exactly the
element keys of the originally configured `e_dress` mapping and the
result overwrites `model_params.e_dress` before model construction; in
every other case `e_dress` is left unchanged. -/
theorem trainner_regen_dress_iff (env : Env)
    (model_dir params_file train_data eval_data : String)
    (train_steps eval_steps : Nat) (batch_size : Option Nat)
    (preprocess cache_data : Bool) (shuffle_buffer : Nat)
    (regen_dress : Bool) (t : TrainnerTrace)
    (ht : t = trainner env model_dir params_file train_data eval_data
      train_steps eval_steps batch_size preprocess cache_data
      shuffle_buffer regen_dress) :
    (∀ dress, regen_dress = true →
      (env.readParams params_file).model_params.e_dress = some dress →
      t.modelArg.model_params.e_dress
        = some (env.getAtomicDress (Dataset.loadTF train_data)
            (dress.map Prod.fst)).1) ∧
    (¬ (regen_dress = true ∧
        (env.readParams params_file).model_params.e_dress ≠ none) →
      t.modelArg.model_params.e_dress
        = (env.readParams params_file).model_params.e_dress) := by
  subst ht
  constructor
  · intro dress hr hd
    subst hr
    simp [trainner, regenDressStep, hd]
  · intro hnot
    cases regen_dress with
    | false => simp [trainner, regenDressStep]
    | true =>
      have hd : (env.readParams params_file).model_params.e_dress = none := by
        by_contra hne
        exact hnot ⟨rfl, hne⟩
      simp [trainner, regenDressStep, hd]

/-- C1 witness: on a concrete environment with a configured dress on
element 1, regeneration overwrites the dress with the recomputed
mapping. -/
theorem trainner_regen_dress_iff_witness :
    (trainner sampleEnv "md" "pf" "td" "ed" 5 2 none false false 10
        true).modelArg.model_params.e_dress = some [(1, 2)] := by
  have h := (trainner_regen_dress_iff sampleEnv "md" "pf" "td" "ed" 5 2 none
      false false 10 true _ rfl).1 [(1, 1/2)] rfl rfl
  refine h.trans ?_
  norm_num [sampleEnv]

/-- C2 counterexample: at a concrete input whose `train_and_evaluate`
oracle yields the metrics value `42`, `trainner` returns `None` rather
than those metrics, so the claim that `trainner` propagates the metrics
to its caller is false. -/
theorem trainner_return_counterexample :
    ¬ ((trainner sampleEnv "md" "pf" "td" "ed" 5 2 none false false 10
          false).ret
        = some (trainner sampleEnv "md" "pf" "td" "ed" 5 2 none false false 10
          false).taeResult) := by
  simp [trainner]

/-- C2 (amended): `trainner` delegates to the external
train-and-evaluate procedure with the model, the training spec and the
evaluation spec, but discards the metrics that procedure yields and
returns `None` (the function body has no `return` statement). -/
theorem trainner_delegates_and_returns_none (env : Env)
    (model_dir params_file train_data eval_data : String)
    (train_steps eval_steps : Nat) (batch_size : Option Nat)
    (preprocess cache_data : Bool) (shuffle_buffer : Nat)
    (regen_dress : Bool) (t : TrainnerTrace)
    (ht : t = trainner env model_dir params_file train_data eval_data
      train_steps eval_steps batch_size preprocess cache_data
      shuffle_buffer regen_dress) :
    t.taeResult
      = env.trainAndEvaluate (potential_model t.modelArg) t.trainSpec t.evalSpec ∧
    t.ret = none := by
  subst ht
  exact ⟨rfl, rfl⟩

/-- C2 witness for the amended claim, on a concrete environment whose
train-and-evaluate oracle yields `42`. -/
theorem trainner_delegates_and_returns_none_witness :
    (trainner sampleEnv "md" "pf" "td" "ed" 5 2 none false false 10
        false).taeResult = 42 ∧
    (trainner sampleEnv "md" "pf" "td" "ed" 5 2 none false false 10
        false).ret = none := by
  have h := trainner_delegates_and_returns_none sampleEnv "md" "pf" "td" "ed"
    5 2 none false false 10 false _ rfl
  exact ⟨h.1.trans (by rfl), h.2⟩

/-- C3: the training dataset pipeline applies, in order: load, batch
when a batch size is given, the selected network's preprocessing map
when the preprocess flag is set, cache when the cache flag is set, then
repeat, then shuffle with the given buffer; the evaluation pipeline
applies the same conditional load/batch/preprocess/cache stages in the
same order with no repeat and no shuffle. -/
theorem trainner_pipeline_stages (env : Env)
    (model_dir params_file train_data eval_data : String)
    (train_steps eval_steps : Nat) (batch_size : Option Nat)
    (preprocess cache_data : Bool) (shuffle_buffer : Nat)
    (regen_dress : Bool) (t : TrainnerTrace)
    (ht : t = trainner env model_dir params_file train_data eval_data
      train_steps eval_steps batch_size preprocess cache_data
      shuffle_buffer regen_dress) :
    stages t.trainSpec.inputFn
      = [Stage.loadS train_data]
        ++ (match batch_size with | some n => [Stage.batchSt n] | none => [])
        ++ (if preprocess then
              [Stage.mapSt (resolveNetwork env t.modelArg) t.modelArg.network_params]
            else [])
        ++ (if cache_data then [Stage.cacheSt] else [])
        ++ [Stage.repeatSt, Stage.shuffleSt shuffle_buffer] ∧
    stages t.evalSpec.inputFn
      = [Stage.loadS eval_data]
        ++ (match batch_size with | some n => [Stage.batchSt n] | none => [])
        ++ (if preprocess then
              [Stage.mapSt (resolveNetwork env t.modelArg) t.modelArg.network_params]
            else [])
        ++ (if cache_data then [Stage.cacheSt] else []) := by
  subst ht
  cases batch_size <;> cases preprocess <;> cases cache_data <;>
    simp [trainner, datasetFn, stages]

/-- C3 witness: concrete pipeline with batching, preprocessing and
caching all enabled. -/
theorem trainner_pipeline_stages_witness :
    stages (trainner sampleEnv "md" "pf" "td" "ed" 5 2 (some 50) true true 10
        false).trainSpec.inputFn
      = [Stage.loadS "td", Stage.batchSt 50,
         Stage.mapSt 12 [("depth", (3 : ℚ))], Stage.cacheSt,
         Stage.repeatSt, Stage.shuffleSt 10] := by
  have h := (trainner_pipeline_stages sampleEnv "md" "pf" "td" "ed" 5 2
      (some 50) true true 10 false _ rfl).1
  exact h.trans (by decide)

/-- C4 (frame): between loading the parameter record and handing it to
`potential_model`, `trainner` mutates at most `model_dir` (always set
to the supplied directory) and `model_params.e_dress` (only when
regeneration applies); every other field reaches `potential_model`
unchanged. -/
theorem trainner_frame (env : Env)
    (model_dir params_file train_data eval_data : String)
    (train_steps eval_steps : Nat) (batch_size : Option Nat)
    (preprocess cache_data : Bool) (shuffle_buffer : Nat)
    (regen_dress : Bool) (t : TrainnerTrace)
    (ht : t = trainner env model_dir params_file train_data eval_data
      train_steps eval_steps batch_size preprocess cache_data
      shuffle_buffer regen_dress) :
    t.modelArg.model_dir = model_dir ∧
    t.modelArg.network = (env.readParams params_file).network ∧
    t.modelArg.network_params = (env.readParams params_file).network_params ∧
    t.modelArg.extra = (env.readParams params_file).extra ∧
    t.modelArg.model_params.e_scale
      = (env.readParams params_file).model_params.e_scale ∧
    t.modelArg.model_params.e_unit
      = (env.readParams params_file).model_params.e_unit ∧
    t.modelArg.model_params.use_force
      = (env.readParams params_file).model_params.use_force ∧
    t.modelArg.model_params.extra
      = (env.readParams params_file).model_params.extra ∧
    (¬ (regen_dress = true ∧
        (env.readParams params_file).model_params.e_dress ≠ none) →
      t.modelArg.model_params.e_dress
        = (env.readParams params_file).model_params.e_dress) := by
  subst ht
  cases regen_dress with
  | false => simp [trainner, regenDressStep]
  | true =>
    cases hd : (env.readParams params_file).model_params.e_dress with
    | none => simp [trainner, regenDressStep, hd]
    | some dress => simp [trainner, regenDressStep, hd]

/-- C4 witness: with regeneration off, only `model_dir` changes. -/
theorem trainner_frame_witness :
    (trainner sampleEnv "new_dir" "pf" "td" "ed" 3 1 (some 50) true true 100
        false).modelArg.model_dir = "new_dir" ∧
    (trainner sampleEnv "new_dir" "pf" "td" "ed" 3 1 (some 50) true true 100
        false).modelArg.model_params.e_dress = some [(1, 1/2)] := by
  have h := trainner_frame sampleEnv "new_dir" "pf" "td" "ed" 3 1 (some 50)
    true true 100 false _ rfl
  refine ⟨h.1, ?_⟩
  exact (h.2.2.2.2.2.2.2.2 (by simp)).trans rfl

/-- C8: `main` forwards the eleven parsed flag values to `trainner`
unchanged and in the corresponding parameter positions, with no further
checks. -/
theorem main_forwards_args (env : Env) (a : Args) :
    main env a = trainner env a.model_dir a.params_file a.train_data
      a.eval_data a.train_steps a.eval_steps a.batch_size a.preprocess
      a.cache_data a.shuffle_buffer a.regen_dress := rfl

/-- C6: the energy-conservation check of the test oracle holds exactly
when the change in predicted energy between the scan endpoints (atom
0's x-coordinate at `-3` and at `-6`) equals, within tolerance, the
negative of the trapezoidal integral of the predicted force component
along the scan direction over the scan path. -/
theorem conservation_check_iff (E : ℚ → ℚ) (F : ℚ → List (List ℚ)) (tol : ℚ) :
    conservationCheck E F tol ↔
      |(E (-3) - E (-6)) -
        (-(npTrapz (xScanRange.map (fun x => ((F x).headD []).headD 0))
            xScanRange))| ≤ tol := by
  have hne : xScanRange ≠ [] := by
    unfold xScanRange
    exact npLinspace_ne_nil _ _ _ (by norm_num)
  have hlast : xScanRange.getLastD 0 = -3 := by
    unfold xScanRange
    exact npLinspace_getLastD _ _ _ (by norm_num)
  have hhead : xScanRange.headD 0 = -6 := by
    unfold xScanRange
    exact npLinspace_headD _ _ _ (by norm_num)
  simp only [conservationCheck, assertAlmostEqual]
  rw [getLastD_map E xScanRange 0 0 hne, headD_map E xScanRange 0 0 hne,
    hlast, hhead]

/-- C5: the virial-pressure check of the test oracle holds exactly when
the change in predicted energy between the scan endpoints (cell side
length `3.5` and `3`) equals, within tolerance, the trapezoidal
integral, over the volume variable `V = l³`, of the predicted pressure
derived from the trace of the predicted stress tensor
(`trace(stress)/3` divided by `l³`). -/
theorem virial_check_iff (E : ℚ → ℚ) (S : ℚ → List (List ℚ)) (tol : ℚ) :
    virialCheck E S tol ↔
      |(E (35/10) - E 3) -
        npTrapz (lScanRange.map (fun l => trace3 (S l) / 3 / l ^ 3))
          (lScanRange.map (fun l => l ^ 3))| ≤ tol := by
  have hne : lScanRange ≠ [] := by
    unfold lScanRange
    exact npLinspace_ne_nil _ _ _ (by norm_num)
  have hlast : lScanRange.getLastD 0 = 35/10 := by
    unfold lScanRange
    exact npLinspace_getLastD _ _ _ (by norm_num)
  have hhead : lScanRange.headD 0 = 3 := by
    unfold lScanRange
    exact npLinspace_headD _ _ _ (by norm_num)
  simp only [virialCheck, assertAlmostEqual, pressureAt]
  rw [getLastD_map E lScanRange 0 0 hne, headD_map E lScanRange 0 0 hne,
    hlast, hhead]

set_option maxRecDepth 10000 in
/-- C9: `_get_lj_data` produces exactly 1000 samples; sample `i` has
coordinates `[[-5 + i·5/999, 0, 0], [0, 1, 0], [1, 1, 0]]` (atom 0's
x-coordinate sweeping 1000 evenly spaced values over `[-5, 0]`),
element numbers `[1, 1, 1]`, and the energy and forces computed by the
Lennard-Jones reference calculator with cutoff `5.0` at those
coordinates. -/
theorem get_lj_data_spec (lj : ℚ → LJCalc) :
    (get_lj_data lj).coord.length = 1000 ∧
    (get_lj_data lj).elems.length = 1000 ∧
    (get_lj_data lj).e_data.length = 1000 ∧
    (get_lj_data lj).f_data.length = 1000 ∧
    ∀ i, i < 1000 →
      (get_lj_data lj).coord.getD i []
        = [[-5 + (i : ℚ) * 5 / 999, 0, 0], [0, 1, 0], [1, 1, 0]] ∧
      (get_lj_data lj).elems.getD i [] = [1, 1, 1] ∧
      (get_lj_data lj).e_data.getD i 0
        = (lj 5).energy ((get_lj_data lj).coord.getD i []) ∧
      (get_lj_data lj).f_data.getD i []
        = (lj 5).forces ((get_lj_data lj).coord.getD i []) := by
  have hlen : ljScanXs.length = 1000 := by
    unfold ljScanXs
    exact npLinspace_length _ _ _
  refine ⟨?_, ?_, ?_, ?_, ?_⟩
  · rw [show (get_lj_data lj).coord = ljScanXs.map ljPositions from rfl,
      List.length_map, hlen]
  · rw [show (get_lj_data lj).elems = ljScanXs.map (fun _ => [1, 1, 1]) from rfl,
      List.length_map, hlen]
  · rw [show (get_lj_data lj).e_data
        = ljScanXs.map (fun x => (lj 5).energy (ljPositions x)) from rfl,
      List.length_map, hlen]
  · rw [show (get_lj_data lj).f_data
        = ljScanXs.map (fun x => (lj 5).forces (ljPositions x)) from rfl,
      List.length_map, hlen]
  intro i hi
  have hil : i < ljScanXs.length := by rw [hlen]; exact hi
  have hx : ljScanXs.getD i 0 = -5 + (i : ℚ) * 5 / 999 := by
    unfold ljScanXs
    rw [npLinspace_getD _ _ _ _ (by norm_num) hi]
    norm_num
  have hcoord : (get_lj_data lj).coord.getD i []
      = ljPositions (ljScanXs.getD i 0) := by
    simp only [get_lj_data]
    exact getD_map_lt _ _ _ _ _ hil
  refine ⟨?_, ?_, ?_, ?_⟩
  · rw [hcoord, hx]
    rfl
  · simp only [get_lj_data]
    rw [getD_map_lt (fun _ => [1, 1, 1]) ljScanXs i [] 0 hil]
  · rw [hcoord]
    simp only [get_lj_data]
    exact getD_map_lt (fun x => (lj 5).energy (ljPositions x)) ljScanXs i 0 0 hil
  · rw [hcoord]
    simp only [get_lj_data]
    exact getD_map_lt (fun x => (lj 5).forces (ljPositions x)) ljScanXs i [] 0 hil

/-- A concrete Lennard-Jones stand-in calculator: the energy at cutoff
`rc` is `rc` plus atom 0's x-coordinate, the force matrix the position
matrix itself. -/
def flatLJ : ℚ → LJCalc := fun rc =>
  { energy := fun pos => rc + (pos.headD []).headD 0
    forces := fun pos => pos }

set_option maxRecDepth 10000 in
/-- C9 witness: the first of the 1000 samples on a concrete
calculator. -/
theorem get_lj_data_spec_witness :
    (get_lj_data flatLJ).coord.length = 1000 ∧
    (get_lj_data flatLJ).coord.getD 0 []
      = [[-5, 0, 0], [0, 1, 0], [1, 1, 0]] := by
  have h := get_lj_data_spec flatLJ
  have h0 := h.2.2.2.2 0 (by norm_num)
  refine ⟨h.1, ?_⟩
  refine h0.1.trans ?_
  norm_num

/-- C10: a flag declared with argparse `type=bool` coerces any supplied
non-empty string (including `"False"`, `"false"`, `"0"`) to `True` and
only the empty string to `False`; the declared defaults (preprocess
`False`, cache-data `True`, regen-dress `True`) take effect only when
the flag is omitted. -/
theorem bool_flag_coercion :
    (∀ s : String, s ≠ "" →
        parsePreprocessFlag (some s) = true ∧
        parseCacheDataFlag (some s) = true ∧
        parseRegenDressFlag (some s) = true) ∧
    parsePreprocessFlag (some "False") = true ∧
    parsePreprocessFlag (some "false") = true ∧
    parsePreprocessFlag (some "0") = true ∧
    parsePreprocessFlag (some "") = false ∧
    parseCacheDataFlag (some "") = false ∧
    parseRegenDressFlag (some "") = false ∧
    parsePreprocessFlag none = false ∧
    parseCacheDataFlag none = true ∧
    parseRegenDressFlag none = true := by
  have hne : ∀ s : String, s ≠ "" → pyBoolOfString s = true := by
    intro s hs
    simpa [pyBoolOfString, bne_iff_ne] using hs
  refine ⟨fun s hs => ?_, by decide, by decide, by decide, by decide,
    by decide, by decide, rfl, rfl, rfl⟩
  simp [parsePreprocessFlag, parseCacheDataFlag, parseRegenDressFlag,
    parseBoolFlag, hne s hs]

/-- C10 witness: a supplied `"False"` string enables the flag, and a
non-empty value enables cache-data. -/
theorem bool_flag_coercion_witness :
    parsePreprocessFlag (some "False") = true ∧
    parseCacheDataFlag (some "x") = true := by
  have h := bool_flag_coercion
  exact ⟨h.2.1, (h.1 "x" (by decide)).2.1⟩

/-- C7: for both tested network architectures (whose configurations
share `e_scale = 5.0` and `e_unit = 2.0`), the regression check of the
test oracle holds exactly when the reported force-RMSE and energy-RMSE
metrics, divided by `e_scale`, equal — within tolerance — the directly
computed residual RMSE of the model's own predictions (divided by
`e_unit`) against the reference data. -/
theorem regression_check_iff (M_F M_E tol : ℝ)
    (f_pred f_data e_pred e_data : List ℝ) :
    (regressionCheck pinnTestModelParams M_F M_E f_pred f_data e_pred e_data tol ↔
      (|M_F / 5 - Real.sqrt (npMeanR
          ((List.zipWith (fun p d => p / 2 - d) f_pred f_data).map
            (fun r => r ^ 2)))| ≤ tol ∧
       |M_E / 5 - Real.sqrt (npMeanR
          ((List.zipWith (fun p d => p / 2 - d) e_pred e_data).map
            (fun r => r ^ 2)))| ≤ tol)) ∧
    (regressionCheck bpnnTestModelParams M_F M_E f_pred f_data e_pred e_data tol ↔
      (|M_F / 5 - Real.sqrt (npMeanR
          ((List.zipWith (fun p d => p / 2 - d) f_pred f_data).map
            (fun r => r ^ 2)))| ≤ tol ∧
       |M_E / 5 - Real.sqrt (npMeanR
          ((List.zipWith (fun p d => p / 2 - d) e_pred e_data).map
            (fun r => r ^ 2)))| ≤ tol)) := by
  constructor <;>
    simp only [regressionCheck, assertAlmostEqualR, rmseResidual,
      pinnTestModelParams, bpnnTestModelParams] <;>
    norm_num

end PiNN
